import Mathlib

set_option maxRecDepth 100000

/-!
Verification of the `internet_status` repository: a shallow embedding of the
probe-response parser / classifier (`src/ping.py`) and of the log aggregator
(`src/log_parser.py`), with theorems about the spec's claims.

Python strings are modelled as `List Char`; Python exceptions (IndexError on
out-of-range list subscripts, ValueError from `int()` / `float()`, KeyError on
missing dict keys) are modelled with `Except PyErr`.  Python floats are
modelled as exact decimals (`PyFloat`), which is faithful here because the
program only parses decimal literals and compares them, never does arithmetic
on them.
-/

namespace InternetStatus

/-- Python exception kinds raised by the code under study. -/
inductive PyErr where
  | indexError
  | valueError
  | keyError
deriving DecidableEq, Repr

/-- A Python `str`, modelled as its list of characters. -/
abbrev PyStr := List Char

/-- Python list subscription `l[i]`, including negative indices; raises
`IndexError` when out of range. -/
def pyIndex {α : Type} (l : List α) (i : Int) : Except PyErr α :=
  let j : Int := if i < 0 then i + l.length else i
  if h : 0 ≤ j ∧ j.toNat < l.length then .ok (l.get ⟨j.toNat, h.2⟩)
  else .error .indexError

/-- Python `str.split(sep)` for a one-character separator: keeps empty
chunks, `''.split(sep) == ['']`. -/
def pySplit (sep : Char) : PyStr → List PyStr
  | [] => [[]]
  | c :: cs =>
    match pySplit sep cs with
    | [] => [[]]
    | w :: ws => if c == sep then [] :: w :: ws else (c :: w) :: ws

/-- Python `str.splitlines()` restricted to `\n` line ends (the only line
terminator occurring in this program's data): no entry for a trailing
newline, and `''.splitlines() == []`. -/
def pySplitlines (l : PyStr) : List PyStr :=
  let parts := pySplit '\n' l
  if parts.getLast? = some [] then parts.dropLast else parts

/-- Does `sub` occur at the start of `s`? (helper for `pyContains`). -/
def startsWithChars : PyStr → PyStr → Bool
  | [], _ => true
  | _ :: _, [] => false
  | a :: as, b :: bs => a == b && startsWithChars as bs

/-- Python substring test `sub in s`. -/
def pyContains : PyStr → PyStr → Bool
  | [], sub => sub.isEmpty
  | c :: rest, sub => startsWithChars sub (c :: rest) || pyContains rest sub

/-- Characters stripped by Python `int()` / `float()` before parsing. -/
def isPySpace (c : Char) : Bool :=
  c == ' ' || c == '\t' || c == '\n' || c == '\r'

/-- Strip leading and trailing whitespace. -/
def pyStrip (l : PyStr) : PyStr :=
  ((l.dropWhile isPySpace).reverse.dropWhile isPySpace).reverse

/-- Value of a list of decimal digit characters. -/
def digitsToNat (l : PyStr) : Nat :=
  l.foldl (fun a c => a * 10 + (c.toNat - 48)) 0

/-- Are all characters decimal digits? -/
def allDigits (l : PyStr) : Bool := l.all Char.isDigit

/-- Parse an unsigned decimal integer (empty input is invalid). -/
def pyIntCore (l : PyStr) : Option Int :=
  if allDigits l && !l.isEmpty then some (digitsToNat l) else none

/-- Python `int(s)`: strips whitespace, optional sign, decimal digits;
`none` models the `ValueError` raise. -/
def pyInt (l : PyStr) : Option Int :=
  match pyStrip l with
  | '-' :: rest => (pyIntCore rest).map (fun n => -n)
  | '+' :: rest => pyIntCore rest
  | rest => pyIntCore rest

/-- An exact decimal number `mantissa / 10 ^ exponent`, the model of the
Python floats this program parses and compares. -/
structure PyFloat where
  mantissa : Int
  exponent : Nat
deriving DecidableEq, Repr

/-- Strict order on decimals, by cross multiplication. -/
def PyFloat.gtb (a b : PyFloat) : Bool :=
  decide (b.mantissa * (10 : Int) ^ a.exponent < a.mantissa * (10 : Int) ^ b.exponent)

/-- Parse an unsigned decimal float literal: digits with an optional single
point, at least one digit overall. -/
def pyFloatCore (l : PyStr) : Option PyFloat :=
  match pySplit '.' l with
  | [ip] => if allDigits ip && !ip.isEmpty then some ⟨digitsToNat ip, 0⟩ else none
  | [ip, fp] =>
    if allDigits ip && allDigits fp && !(ip.isEmpty && fp.isEmpty) then
      some ⟨(digitsToNat ip * 10 ^ fp.length + digitsToNat fp : Nat), fp.length⟩
    else none
  | _ => none

/-- Python `float(s)`: strips whitespace, optional sign, decimal literal;
`none` models the `ValueError` raise. -/
def pyFloat (l : PyStr) : Option PyFloat :=
  match pyStrip l with
  | '-' :: rest => (pyFloatCore rest).map (fun f => ⟨-f.mantissa, f.exponent⟩)
  | '+' :: rest => pyFloatCore rest
  | rest => pyFloatCore rest

/-- `Except.isOk` as a plain definition for statements. -/
def isOkB {α : Type} : Except PyErr α → Bool
  | .ok _ => true
  | .error _ => false

/-- From the docstring of `check_if_ping_executed_successfully` in
`src/ping.py`: the marker a failed ping command invocation leaves in the
first response line. -/
def COMMAND_EXIT_ERROR_MESSAGE : PyStr := "returned non-zero exit status".data

/-- Modelled from the spec: `src/sec_constants.py` (defining `LOCAL_ROUTER`)
is not in the repository snapshot; the spec calls it the distinguished
local-router address.  Only its identity matters to the claims. -/
def LOCAL_ROUTER : PyStr := "192.168.0.1".data

/-- Modelled from the spec: `src/constants.py` is not in the repository
snapshot; the error markers are fixed literal strings shared by the write
path and the aggregator.  Chosen pairwise non-overlapping, as the spec's
fixed vocabulary requires. -/
def LOCAL_ROUTER_ERROR : PyStr := "Unable to reach local router".data

/-- Modelled from the spec: see `LOCAL_ROUTER_ERROR`. -/
def MODEM_ERROR : PyStr := "Unable to reach the modem".data

/-- Modelled from the spec: see `LOCAL_ROUTER_ERROR`. -/
def RESOLVE_HOST_ERROR : PyStr := "Unable to resolve host".data

/-- Modelled from the spec: see `LOCAL_ROUTER_ERROR`. -/
def PACKET_LOSS_ERROR : PyStr := "Packet loss to host was too high".data

/-- Modelled from the spec: see `LOCAL_ROUTER_ERROR`. -/
def ROUND_TRIP_TIME_ERROR : PyStr := "Round trip time to host was too high".data

/-- Modelled from the spec: acceptability threshold for packet loss percent
(`src/constants.py` is not in the snapshot; only its role matters). -/
def MAX_ACCEPTABLE_PACKET_LOSS : PyFloat := ⟨10, 0⟩

/-- Modelled from the spec: acceptability threshold for the average round
trip time. -/
def MAX_ACCEPTABLE_AVERAGE_ROUND_TRIP_TIME : PyFloat := ⟨100, 0⟩

/-- Modelled from the spec: the "logger starting" banner line marker. -/
def LOGGER_STARTING_LOG : PyStr := "Starting internet status log".data

/-- Modelled from the spec: the "status check running" heartbeat marker. -/
def LOGGER_STATUS_CHECK_RUNNING_MESSAGE : PyStr := "Internet status check running".data

/-- The literal `'packet loss'` scanned for in `parse_ping_summary_...`. -/
def packet_loss_literal : PyStr := "packet loss".data

/-- The parsed ping dictionary built by `Ping.parse_ping_response`: the three
keys always present are `host`, `able_to_resolve_host` and `error`; the four
numeric keys are only added on a resolved multi-line response, modelled with
`Option` fields defaulting to `none`. -/
structure ParsedPing where
  host : PyStr
  able_to_resolve_host : Bool
  error : Option PyStr
  num_packets_sent : Option Int := none
  packet_loss_percent : Option PyFloat := none
  average_round_trip_time : Option PyFloat := none
  max_round_trip_time : Option PyFloat := none
deriving DecidableEq, Repr

/-- `Ping.check_if_ping_executed_successfully`: looks for the command-exit
marker in the first line; subscripting `[0]` raises on an empty list. -/
def check_if_ping_executed_successfully (split_ping_response : List PyStr) :
    Except PyErr Bool :=
  match pyIndex split_ping_response 0 with
  | .error e => .error e
  | .ok first =>
    if pyContains first COMMAND_EXIT_ERROR_MESSAGE then .ok false else .ok true

/-- `Ping.determine_if_able_to_resolve_host`: a one-line response means the
host did not resolve. -/
def determine_if_able_to_resolve_host (_url : PyStr)
    (split_ping_response : List PyStr) : Bool :=
  if split_ping_response.length = 1 then false else true

/-- The `for metric in split_ping_summary` loop of
`Ping.parse_ping_summary_and_update_parsed_ping_dict`: every comma segment
containing `'packet loss'` overwrites `packet_loss_percent` with the float
before its first `'%'`. -/
def packet_loss_segment_loop (d : ParsedPing) : List PyStr → Except PyErr ParsedPing
  | [] => .ok d
  | metric :: rest =>
    if pyContains metric packet_loss_literal then
      match pyIndex (pySplit '%' metric) 0 with
      | .error e => .error e
      | .ok s =>
        match pyFloat s with
        | none => .error .valueError
        | some q => packet_loss_segment_loop { d with packet_loss_percent := some q } rest
    else packet_loss_segment_loop d rest

/-- `Ping.parse_ping_summary_and_update_parsed_ping_dict`. -/
def parse_ping_summary_and_update_parsed_ping_dict (d : ParsedPing)
    (ping_summary : PyStr) : Except PyErr ParsedPing :=
  match pyIndex (pySplit ',' ping_summary) 0 with
  | .error e => .error e
  | .ok packets_transmitted_data =>
    match pyIndex (pySplit ' ' packets_transmitted_data) 0 with
    | .error e => .error e
    | .ok w =>
      match pyInt w with
      | none => .error .valueError
      | some n =>
        packet_loss_segment_loop { d with num_packets_sent := some n }
          (pySplit ',' ping_summary)

/-- `Ping.parse_ping_timing_and_update_parsed_ping_dict`. -/
def parse_ping_timing_and_update_parsed_ping_dict (d : ParsedPing)
    (ping_timing : PyStr) : Except PyErr ParsedPing :=
  match pyIndex (pySplit '=' ping_timing) 1 with
  | .error e => .error e
  | .ok rhs =>
    match pyIndex (pySplit '/' rhs) 1 with
    | .error e => .error e
    | .ok s1 =>
      match pyFloat s1 with
      | none => .error .valueError
      | some avg =>
        match pyIndex (pySplit '/' rhs) 2 with
        | .error e => .error e
        | .ok s2 =>
          match pyFloat s2 with
          | none => .error .valueError
          | some mx =>
            .ok { d with average_round_trip_time := some avg,
                         max_round_trip_time := some mx }

/-- `Ping.parse_ping_response`. -/
def parse_ping_response (url response : PyStr) : Except PyErr ParsedPing :=
  match check_if_ping_executed_successfully (pySplitlines response) with
  | .error e => .error e
  | .ok false =>
    if url = LOCAL_ROUTER then
      .ok { host := url, able_to_resolve_host := false,
            error := some LOCAL_ROUTER_ERROR }
    else
      .ok { host := url, able_to_resolve_host := false,
            error := some MODEM_ERROR }
  | .ok true =>
    if determine_if_able_to_resolve_host url (pySplitlines response) = false then
      .ok { host := url, able_to_resolve_host := false, error := none }
    else
      match pyIndex (pySplitlines response) (-2) with
      | .error e => .error e
      | .ok ping_summary_response =>
        match parse_ping_summary_and_update_parsed_ping_dict
            { host := url, able_to_resolve_host := true, error := none }
            ping_summary_response with
        | .error e => .error e
        | .ok d2 =>
          match pyIndex (pySplitlines response) (-1) with
          | .error e => .error e
          | .ok ping_timing_response =>
            parse_ping_timing_and_update_parsed_ping_dict d2 ping_timing_response

/-- `Ping.check_if_ping_resolve_host`. -/
def check_if_ping_resolve_host (d : ParsedPing) : Bool :=
  d.able_to_resolve_host

/-- `Ping.check_if_ping_packet_loss_acceptable`; reading the missing dict key
raises `KeyError`. -/
def check_if_ping_packet_loss_acceptable (d : ParsedPing) : Except PyErr Bool :=
  match d.packet_loss_percent with
  | none => .error .keyError
  | some q => .ok (!(PyFloat.gtb q MAX_ACCEPTABLE_PACKET_LOSS))

/-- `Ping.check_if_ping_round_trip_time_acceptable`. -/
def check_if_ping_round_trip_time_acceptable (d : ParsedPing) : Except PyErr Bool :=
  match d.average_round_trip_time with
  | none => .error .keyError
  | some q => .ok (!(PyFloat.gtb q MAX_ACCEPTABLE_AVERAGE_ROUND_TRIP_TIME))

/-- `Ping.check_if_ping_was_successful`: the classifier, first match wins. -/
def check_if_ping_was_successful (d : ParsedPing) : Except PyErr ParsedPing :=
  if check_if_ping_resolve_host d = false then
    .ok { d with error := some RESOLVE_HOST_ERROR }
  else
    match check_if_ping_packet_loss_acceptable d with
    | .error e => .error e
    | .ok lossOk =>
      if lossOk = false then .ok { d with error := some PACKET_LOSS_ERROR }
      else
        match check_if_ping_round_trip_time_acceptable d with
        | .error e => .error e
        | .ok rttOk =>
          if rttOk = false then .ok { d with error := some ROUND_TRIP_TIME_ERROR }
          else .ok { d with error := some [] }

/-- Python truthiness of the `error` dict value (`None` and `''` are falsy). -/
def pyTruthyOptStr : Option PyStr → Bool
  | none => false
  | some s => !s.isEmpty

/-- `Ping.ping_host_and_return_parsed_response`, with the raw probe text
passed in (`ping_host` is the excluded I/O shim): parse, then classify only
when the parser set no error. -/
def ping_host_and_return_parsed_response (url response : PyStr) :
    Except PyErr ParsedPing :=
  match parse_ping_response url response with
  | .error e => .error e
  | .ok d =>
    if pyTruthyOptStr d.error = false then check_if_ping_was_successful d
    else .ok d

/-- One day's tally in the aggregation output: the four problem-category
counters initialised to zero (the `PARSER_*` keys of `src/log_parser.py`). -/
structure DaySummary where
  packet_loss : Nat := 0
  round_trip_time : Nat := 0
  modem_down : Nat := 0
  router_down : Nat := 0
deriving DecidableEq, Repr

/-- The `PARSER_*` summary keys of `src/log_parser.py` as an enumeration. -/
inductive SummaryKey where
  | packetLoss
  | roundTripTime
  | modemDown
  | routerDown
deriving DecidableEq, Repr

/-- `internet_status_summary[log_date][key] += 1`. -/
def incKey (k : SummaryKey) (v : DaySummary) : DaySummary :=
  match k with
  | .packetLoss => { v with packet_loss := v.packet_loss + 1 }
  | .roundTripTime => { v with round_trip_time := v.round_trip_time + 1 }
  | .modemDown => { v with modem_down := v.modem_down + 1 }
  | .routerDown => { v with router_down := v.router_down + 1 }

/-- `log_message_error_to_summary_key_map` of `LogParser.parse_log`, in the
source's (dict insertion) iteration order. -/
def log_message_error_to_summary_key_map : List (PyStr × SummaryKey) :=
  [(PACKET_LOSS_ERROR, .packetLoss),
   (ROUND_TRIP_TIME_ERROR, .roundTripTime),
   (MODEM_ERROR, .modemDown),
   (LOCAL_ROUTER_ERROR, .routerDown)]

/-- `internet_status_summary`: a Python dict keyed by date, modelled as an
association list in insertion order (keys unique by construction). -/
abbrev StatusSummary := List (PyStr × DaySummary)

/-- Dict membership / read for the summary map. -/
def lookupDate : StatusSummary → PyStr → Option DaySummary
  | [], _ => none
  | (k, v) :: rest, d => if k = d then some v else lookupDate rest d

/-- In-place update of the (first, and by construction only) entry for a
date. -/
def updateDate : StatusSummary → PyStr → (DaySummary → DaySummary) → StatusSummary
  | [], _, _ => []
  | (k, v) :: rest, d, f =>
    if k = d then (k, f v) :: rest else (k, v) :: updateDate rest d f

/-- The `for error, internet_status_summary_key in ...items()` scan of one
line's message segment: every map entry is tested (the source's `continue`
just moves to the next entry), and each contained marker increments its
counter for the line's date. -/
def markerScan (s : StatusSummary) (log_date log_message : PyStr) : StatusSummary :=
  log_message_error_to_summary_key_map.foldl
    (fun acc p =>
      if pyContains log_message p.1 then updateDate acc log_date (incKey p.2)
      else acc) s

/-- The body of the `for line in log_file_string.splitlines()` loop of
`LogParser.parse_log`: skip banner lines; split on `-`, date key is the part
of segment 0 before `@`; create the date entry when new; then read segment 1
(an `IndexError` when the line has no `-`) and scan it for the markers. -/
def parse_log_line (s : StatusSummary) (line : PyStr) : Except PyErr StatusSummary :=
  if pyContains line LOGGER_STARTING_LOG ||
      pyContains line LOGGER_STATUS_CHECK_RUNNING_MESSAGE then .ok s
  else
    match pyIndex (pySplit '-' line) 0 with
    | .error e => .error e
    | .ok log_date_time =>
      match pyIndex (pySplit '@' log_date_time) 0 with
      | .error e => .error e
      | .ok log_date =>
        let s1 := if (lookupDate s log_date).isNone then s ++ [(log_date, {})] else s
        match pyIndex (pySplit '-' line) 1 with
        | .error e => .error e
        | .ok log_message => .ok (markerScan s1 log_date log_message)

/-- The loop of `LogParser.parse_log` over all lines; a raised exception
aborts the whole aggregation. -/
def parse_log_lines (s : StatusSummary) : List PyStr → Except PyErr StatusSummary
  | [] => .ok s
  | line :: rest =>
    match parse_log_line s line with
    | .error e => .error e
    | .ok s2 => parse_log_lines s2 rest

/-- `LogParser.parse_log`. -/
def parse_log (log_file_string : PyStr) : Except PyErr StatusSummary :=
  parse_log_lines [] (pySplitlines log_file_string)

/-- The day summary a non-banner line with message segment `m` contributes
when its date is new: each counter is 1 exactly when its marker occurs in
`m`. -/
def lineScan (m : PyStr) : DaySummary :=
  { packet_loss := if pyContains m PACKET_LOSS_ERROR then 1 else 0,
    round_trip_time := if pyContains m ROUND_TRIP_TIME_ERROR then 1 else 0,
    modem_down := if pyContains m MODEM_ERROR then 1 else 0,
    router_down := if pyContains m LOCAL_ROUTER_ERROR then 1 else 0 }

/-- The concrete log of the spec's aggregation-counts scenario: three lines
dated `07/01/2020` each containing the packet-loss marker, then one line
dated `07/02/2020` containing the modem-down marker. -/
def c9_log : PyStr :=
  ("07/01/2020@10:00:01-Packet loss to host was too high\n07/01/2020@10:05:01-Packet loss to host was too high\n07/01/2020@10:10:01-Packet loss to host was too high\n07/02/2020@09:30:00-Unable to reach the modem").data

theorem pyIndex_cons_zero {α : Type} (a : α) (l : List α) :
    pyIndex (a :: l) 0 = .ok a := by
  simp [pyIndex]

theorem pyIndex_cons_one {α : Type} (a b : α) (l : List α) :
    pyIndex (a :: b :: l) 1 = .ok b := by
  simp [pyIndex]

theorem pyIndex_singleton_one {α : Type} (a : α) :
    pyIndex [a] 1 = .error .indexError := by
  simp [pyIndex]

theorem pySplit_ne_nil (sep : Char) (l : PyStr) : pySplit sep l ≠ [] := by
  cases l with
  | nil => simp [pySplit]
  | cons c cs =>
    unfold pySplit
    cases h : pySplit sep cs with
    | nil => simp
    | cons w ws =>
      by_cases hc : c == sep <;> simp [hc]

theorem pySplit_no_sep (sep : Char) (l : PyStr) (h : sep ∉ l) :
    pySplit sep l = [l] := by
  induction l with
  | nil => rfl
  | cons c cs ih =>
    have hc : ¬(c == sep) = true := by
      simp only [beq_iff_eq]
      intro hce
      exact h (hce ▸ List.mem_cons_self c cs)
    have hcs : sep ∉ cs := fun hm => h (List.mem_cons_of_mem c hm)
    unfold pySplit
    rw [ih hcs]
    simp [hc]

theorem packet_loss_segment_loop_cons_pos (d : ParsedPing) (m spl : PyStr)
    (rest : List PyStr) (q : PyFloat)
    (hc : pyContains m packet_loss_literal = true)
    (hs : pyIndex (pySplit '%' m) 0 = .ok spl)
    (hq : pyFloat spl = some q) :
    packet_loss_segment_loop d (m :: rest) =
      packet_loss_segment_loop { d with packet_loss_percent := some q } rest := by
  conv_lhs => unfold packet_loss_segment_loop
  rw [if_pos hc]
  simp only [hs, hq]

theorem packet_loss_segment_loop_cons_neg (d : ParsedPing) (m : PyStr)
    (rest : List PyStr)
    (hc : pyContains m packet_loss_literal = false) :
    packet_loss_segment_loop d (m :: rest) = packet_loss_segment_loop d rest := by
  conv_lhs => unfold packet_loss_segment_loop
  rw [if_neg (by simp [hc])]

theorem packet_loss_segment_loop_no_match (segs : List PyStr) (d : ParsedPing)
    (hf : segs.filter (fun m => pyContains m packet_loss_literal) = []) :
    packet_loss_segment_loop d segs = .ok d := by
  induction segs generalizing d with
  | nil => rfl
  | cons m rest ih =>
    cases hc : pyContains m packet_loss_literal with
    | true => simp [List.filter_cons, hc] at hf
    | false =>
      simp only [List.filter_cons, hc, if_neg Bool.false_ne_true] at hf
      rw [packet_loss_segment_loop_cons_neg d m rest hc]
      exact ih d hf

theorem packet_loss_segment_loop_single_match (segs : List PyStr) (d : ParsedPing)
    (segPL spl : PyStr) (q : PyFloat)
    (hf : segs.filter (fun m => pyContains m packet_loss_literal) = [segPL])
    (hs : pyIndex (pySplit '%' segPL) 0 = .ok spl)
    (hq : pyFloat spl = some q) :
    packet_loss_segment_loop d segs =
      .ok { d with packet_loss_percent := some q } := by
  induction segs generalizing d with
  | nil => simp at hf
  | cons m rest ih =>
    cases hc : pyContains m packet_loss_literal with
    | true =>
      simp only [List.filter_cons, hc, if_pos] at hf
      obtain ⟨hm, hrest⟩ := List.cons_eq_cons.mp hf
      subst hm
      rw [packet_loss_segment_loop_cons_pos d m spl rest q hc hs hq]
      exact packet_loss_segment_loop_no_match rest _ hrest
    | false =>
      simp only [List.filter_cons, hc, if_neg Bool.false_ne_true] at hf
      rw [packet_loss_segment_loop_cons_neg d m rest hc]
      exact ih d hf

theorem packet_loss_segment_loop_able (segs : List PyStr) (d d' : ParsedPing)
    (h : packet_loss_segment_loop d segs = .ok d') :
    d'.able_to_resolve_host = d.able_to_resolve_host := by
  induction segs generalizing d with
  | nil =>
    unfold packet_loss_segment_loop at h
    injection h with h
    rw [h]
  | cons m rest ih =>
    cases hc : pyContains m packet_loss_literal with
    | true =>
      unfold packet_loss_segment_loop at h
      rw [if_pos hc] at h
      cases hidx : pyIndex (pySplit '%' m) 0 with
      | error e => simp only [hidx] at h; exact Except.noConfusion h
      | ok s =>
        simp only [hidx] at h
        cases hfl : pyFloat s with
        | none => simp only [hfl] at h; exact Except.noConfusion h
        | some qq =>
          simp only [hfl] at h
          exact ih { d with packet_loss_percent := some qq } h
    | false =>
      rw [packet_loss_segment_loop_cons_neg d m rest hc] at h
      exact ih d h

theorem parse_ping_summary_able (d d' : ParsedPing) (s : PyStr)
    (h : parse_ping_summary_and_update_parsed_ping_dict d s = .ok d') :
    d'.able_to_resolve_host = d.able_to_resolve_host := by
  unfold parse_ping_summary_and_update_parsed_ping_dict at h
  cases h0 : pyIndex (pySplit ',' s) 0 with
  | error e => simp only [h0] at h; exact Except.noConfusion h
  | ok seg0 =>
    simp only [h0] at h
    cases h1 : pyIndex (pySplit ' ' seg0) 0 with
    | error e => simp only [h1] at h; exact Except.noConfusion h
    | ok w =>
      simp only [h1] at h
      cases h2 : pyInt w with
      | none => simp only [h2] at h; exact Except.noConfusion h
      | some n =>
        simp only [h2] at h
        exact packet_loss_segment_loop_able _
          { d with num_packets_sent := some n } d' h

theorem parse_ping_timing_able (d d' : ParsedPing) (t : PyStr)
    (h : parse_ping_timing_and_update_parsed_ping_dict d t = .ok d') :
    d'.able_to_resolve_host = d.able_to_resolve_host := by
  unfold parse_ping_timing_and_update_parsed_ping_dict at h
  cases h0 : pyIndex (pySplit '=' t) 1 with
  | error e => simp only [h0] at h; exact Except.noConfusion h
  | ok rhs =>
    simp only [h0] at h
    cases h1 : pyIndex (pySplit '/' rhs) 1 with
    | error e => simp only [h1] at h; exact Except.noConfusion h
    | ok s1 =>
      simp only [h1] at h
      cases h2 : pyFloat s1 with
      | none => simp only [h2] at h; exact Except.noConfusion h
      | some avg =>
        simp only [h2] at h
        cases h3 : pyIndex (pySplit '/' rhs) 2 with
        | error e => simp only [h3] at h; exact Except.noConfusion h
        | ok s2 =>
          simp only [h3] at h
          cases h4 : pyFloat s2 with
          | none => simp only [h4] at h; exact Except.noConfusion h
          | some mx =>
            simp only [h4] at h
            injection h with h
            rw [← h]

/-- C2: for every parsed result with `able_to_resolve_host = false` and
packet loss above the threshold, the classifier sets `RESOLVE_HOST_ERROR`,
not `PACKET_LOSS_ERROR`: the resolution check is decided first and the first
matching condition wins. -/
theorem C2_resolve_beats_packet_loss (d : ParsedPing) (q : PyFloat)
    (hres : d.able_to_resolve_host = false)
    (hloss : d.packet_loss_percent = some q)
    (hgt : PyFloat.gtb q MAX_ACCEPTABLE_PACKET_LOSS = true) :
    check_if_ping_was_successful d =
      .ok { d with error := some RESOLVE_HOST_ERROR } := by
  unfold check_if_ping_was_successful check_if_ping_resolve_host
  rw [hres]
  simp

theorem C2_witness :
    check_if_ping_was_successful
      { host := ("www.google.com").data, able_to_resolve_host := false,
        error := none, packet_loss_percent := some ⟨50, 0⟩ } =
      .ok { host := ("www.google.com").data, able_to_resolve_host := false,
            error := some RESOLVE_HOST_ERROR, packet_loss_percent := some ⟨50, 0⟩ } :=
  C2_resolve_beats_packet_loss _ ⟨50, 0⟩ rfl rfl (by decide)

/-- C3: a raw response whose first line contains the execution-failure marker
parses to a result whose only set field is the diagnosis, which is
`LOCAL_ROUTER_ERROR` exactly when the target is the local-router address and
`MODEM_ERROR` otherwise. -/
theorem C3_execution_failure_diagnosis (url response first : PyStr)
    (rest : List PyStr)
    (hsplit : pySplitlines response = first :: rest)
    (hmark : pyContains first COMMAND_EXIT_ERROR_MESSAGE = true) :
    parse_ping_response url response =
      .ok { host := url, able_to_resolve_host := false,
            error := some (if url = LOCAL_ROUTER then LOCAL_ROUTER_ERROR
                           else MODEM_ERROR) } := by
  unfold parse_ping_response check_if_ping_executed_successfully
  by_cases hu : url = LOCAL_ROUTER <;>
    simp [hsplit, pyIndex_cons_zero, hmark, hu]

theorem C3_witness :
    parse_ping_response LOCAL_ROUTER
      ("Command ping -c 10 -q 192.168.0.1 returned non-zero exit status 2.").data =
      .ok { host := LOCAL_ROUTER, able_to_resolve_host := false,
            error := some (if LOCAL_ROUTER = LOCAL_ROUTER then LOCAL_ROUTER_ERROR
                           else MODEM_ERROR) } :=
  C3_execution_failure_diagnosis LOCAL_ROUTER _ _ [] rfl rfl

theorem C5_counterexample :
    parse_ping_response ("www.google.com").data ("").data = .error .indexError ∧
    pySplitlines ("").data = [] :=
  ⟨rfl, rfl⟩

/-- C5 (amended): `parse` returns a result for every input that splits into
exactly one line, but on an input splitting into zero lines (the empty
string) the first-line execution-failure check subscripts an empty list and
parse raises `IndexError` instead of returning a result. -/
theorem C5_single_line_total_amended (url response line : PyStr)
    (h : pySplitlines response = [line]) :
    isOkB (parse_ping_response url response) = true := by
  unfold parse_ping_response check_if_ping_executed_successfully
    determine_if_able_to_resolve_host
  rw [h, pyIndex_cons_zero]
  cases hc : pyContains line COMMAND_EXIT_ERROR_MESSAGE with
  | true =>
    by_cases hu : url = LOCAL_ROUTER <;> simp [hc, hu, isOkB]
  | false => simp [hc, isOkB]

theorem C5_witness :
    isOkB (parse_ping_response ("www.google.com").data
      ("ping: cannot resolve www.goggle.com: Unknown host").data) = true :=
  C5_single_line_total_amended _ _
    ("ping: cannot resolve www.goggle.com: Unknown host").data rfl

/-- C1: on a well-formed multi-line success response, `parse` sets
`able_to_resolve_host = true` and populates exactly the four numeric fields:
`num_packets_sent` is the leading integer of the first comma segment of the
second-to-last line, `packet_loss_percent` the float before `%` in the comma
segment containing `packet loss`, and the average / max round-trip times
come from indices 1 and 2 of the `/`-split right side of `=` in the last
line. -/
theorem C1_wellformed_multiline_parse
    (url response : PyStr) (lines : List PyStr)
    (first_line summary_line timing_line seg0 w segPL spl rhs s1 s2 : PyStr)
    (n : Int) (loss avg mx : PyFloat)
    (hsplit : pySplitlines response = lines)
    (hfirst : pyIndex lines 0 = .ok first_line)
    (hmark : pyContains first_line COMMAND_EXIT_ERROR_MESSAGE = false)
    (hlen : lines.length ≠ 1)
    (hsum : pyIndex lines (-2) = .ok summary_line)
    (htim : pyIndex lines (-1) = .ok timing_line)
    (hseg0 : pyIndex (pySplit ',' summary_line) 0 = .ok seg0)
    (hw : pyIndex (pySplit ' ' seg0) 0 = .ok w)
    (hn : pyInt w = some n)
    (hfilter : (pySplit ',' summary_line).filter
        (fun m => pyContains m packet_loss_literal) = [segPL])
    (hspl : pyIndex (pySplit '%' segPL) 0 = .ok spl)
    (hloss : pyFloat spl = some loss)
    (hrhs : pyIndex (pySplit '=' timing_line) 1 = .ok rhs)
    (hs1 : pyIndex (pySplit '/' rhs) 1 = .ok s1)
    (havg : pyFloat s1 = some avg)
    (hs2 : pyIndex (pySplit '/' rhs) 2 = .ok s2)
    (hmx : pyFloat s2 = some mx) :
    parse_ping_response url response =
      .ok { host := url, able_to_resolve_host := true, error := none,
            num_packets_sent := some n, packet_loss_percent := some loss,
            average_round_trip_time := some avg, max_round_trip_time := some mx } := by
  have hsummary : parse_ping_summary_and_update_parsed_ping_dict
      { host := url, able_to_resolve_host := true, error := none } summary_line =
      .ok { host := url, able_to_resolve_host := true, error := none,
            num_packets_sent := some n, packet_loss_percent := some loss } := by
    unfold parse_ping_summary_and_update_parsed_ping_dict
    simp only [hseg0, hw, hn]
    exact packet_loss_segment_loop_single_match _ _ _ _ _ hfilter hspl hloss
  have htiming : parse_ping_timing_and_update_parsed_ping_dict
      { host := url, able_to_resolve_host := true, error := none,
        num_packets_sent := some n, packet_loss_percent := some loss } timing_line =
      .ok { host := url, able_to_resolve_host := true, error := none,
            num_packets_sent := some n, packet_loss_percent := some loss,
            average_round_trip_time := some avg, max_round_trip_time := some mx } := by
    unfold parse_ping_timing_and_update_parsed_ping_dict
    simp only [hrhs, hs1, havg, hs2, hmx]
  unfold parse_ping_response check_if_ping_executed_successfully
    determine_if_able_to_resolve_host
  simp only [hsplit, hfirst, hmark]
  rw [if_neg Bool.false_ne_true]
  simp only [hsum, hsummary, htim, htiming]
  simp [hlen]

theorem C1_witness :
    parse_ping_response ("www.google.com").data
      ("PING www.google.com (142.250.80.100): 56 data bytes\n10 packets transmitted, 10 packets received, 0.0% packet loss\nround-trip min/avg/max/stddev = 3.084/8.829/11.708/2.290 ms").data =
      .ok { host := ("www.google.com").data, able_to_resolve_host := true,
            error := none, num_packets_sent := some 10,
            packet_loss_percent := some ⟨0, 1⟩,
            average_round_trip_time := some ⟨8829, 3⟩,
            max_round_trip_time := some ⟨11708, 3⟩ } :=
  C1_wellformed_multiline_parse _ _
    [("PING www.google.com (142.250.80.100): 56 data bytes").data,
     ("10 packets transmitted, 10 packets received, 0.0% packet loss").data,
     ("round-trip min/avg/max/stddev = 3.084/8.829/11.708/2.290 ms").data]
    ("PING www.google.com (142.250.80.100): 56 data bytes").data
    ("10 packets transmitted, 10 packets received, 0.0% packet loss").data
    ("round-trip min/avg/max/stddev = 3.084/8.829/11.708/2.290 ms").data
    ("10 packets transmitted").data
    ("10").data
    (" 0.0% packet loss").data
    (" 0.0").data
    (" 3.084/8.829/11.708/2.290 ms").data
    ("8.829").data
    ("11.708").data
    10 ⟨0, 1⟩ ⟨8829, 3⟩ ⟨11708, 3⟩
    rfl rfl rfl (by decide) rfl rfl rfl rfl rfl rfl rfl rfl rfl rfl rfl rfl rfl

theorem C4_counterexample :
    parse_ping_response ("www.example.com").data
      ("ping: cannot resolve www.example.invalid: Unknown host").data =
      .ok { host := ("www.example.com").data, able_to_resolve_host := false,
            error := none } ∧
    ¬((none : Option PyStr) = some LOCAL_ROUTER_ERROR ∨
      (none : Option PyStr) = some MODEM_ERROR ∨
      (none : Option PyStr) = some RESOLVE_HOST_ERROR) :=
  ⟨rfl, by simp⟩

/-- C4 (amended): for every `ProbeResult` produced by the parser with
`able_to_resolve_host = false`, none of the four numeric fields is
populated, and the diagnosis is either set by the parser to
`LOCAL_ROUTER_ERROR` or `MODEM_ERROR` (execution failure) or still unset
(`None`, the single-line unresolved-host case) — in which case the
subsequent classifier run sets `RESOLVE_HOST_ERROR`. -/
theorem C4_unresolved_invariant_amended (url response : PyStr) (r : ParsedPing)
    (hp : parse_ping_response url response = .ok r)
    (hable : r.able_to_resolve_host = false) :
    (r.num_packets_sent = none ∧ r.packet_loss_percent = none ∧
     r.average_round_trip_time = none ∧ r.max_round_trip_time = none) ∧
    (r.error = some LOCAL_ROUTER_ERROR ∨ r.error = some MODEM_ERROR ∨
     r.error = none) ∧
    check_if_ping_was_successful r =
      .ok { r with error := some RESOLVE_HOST_ERROR } := by
  have hclass : check_if_ping_was_successful r =
      .ok { r with error := some RESOLVE_HOST_ERROR } := by
    unfold check_if_ping_was_successful check_if_ping_resolve_host
    rw [hable]
    simp
  refine ⟨?_, ?_, hclass⟩ <;>
  · unfold parse_ping_response at hp
    cases hc : check_if_ping_executed_successfully (pySplitlines response) with
    | error e => simp only [hc] at hp; exact Except.noConfusion hp
    | ok b =>
      simp only [hc] at hp
      cases b with
      | false =>
        by_cases hu : url = LOCAL_ROUTER <;>
          simp only [hu, if_pos, if_neg, if_true, if_false, reduceIte] at hp <;>
          injection hp with hp <;> subst hp <;> simp
      | true =>
        by_cases hres : determine_if_able_to_resolve_host url
            (pySplitlines response) = false
        · rw [if_pos hres] at hp
          injection hp with hp
          subst hp
          simp
        · rw [if_neg hres] at hp
          cases hsum : pyIndex (pySplitlines response) (-2) with
          | error e => simp only [hsum] at hp; exact Except.noConfusion hp
          | ok summary =>
            simp only [hsum] at hp
            cases hps : parse_ping_summary_and_update_parsed_ping_dict
                { host := url, able_to_resolve_host := true, error := none }
                summary with
            | error e => simp only [hps] at hp; exact Except.noConfusion hp
            | ok d2 =>
              simp only [hps] at hp
              cases htm : pyIndex (pySplitlines response) (-1) with
              | error e => simp only [htm] at hp; exact Except.noConfusion hp
              | ok timing =>
                simp only [htm] at hp
                have h1 := parse_ping_timing_able d2 r timing hp
                have h2 := parse_ping_summary_able _ d2 summary hps
                rw [hable] at h1
                rw [h2] at h1
                simp at h1

theorem C4_witness :
    ((none : Option Int) = none ∧ (none : Option PyFloat) = none ∧
     (none : Option PyFloat) = none ∧ (none : Option PyFloat) = none) ∧
    ((none : Option PyStr) = some LOCAL_ROUTER_ERROR ∨
     (none : Option PyStr) = some MODEM_ERROR ∨ (none : Option PyStr) = none) ∧
    check_if_ping_was_successful
      { host := ("www.wikipedia.org").data, able_to_resolve_host := false,
        error := none } =
      .ok { host := ("www.wikipedia.org").data, able_to_resolve_host := false,
            error := some RESOLVE_HOST_ERROR } :=
  C4_unresolved_invariant_amended ("www.wikipedia.org").data
    ("ping: cannot resolve www.wikipedia.invalid: Unknown host").data
    { host := ("www.wikipedia.org").data, able_to_resolve_host := false,
      error := none }
    rfl rfl

theorem C6_counterexample :
    parse_ping_response ("www.google.com").data
      ("PING www.google.com: 56 data bytes\n10 packets transmitted, 10 packets received, 0.0% packet loss\nround-trip min/avg/max/stddev 3.084/8.829/11.708/2.290 ms").data =
      .error .indexError :=
  rfl

/-- C6 (amended): on a resolved multi-line response whose last (timing) line
lacks `=`, `parse` does not return a structured result at all: the raised
exception (modelled by `Except.error`) escapes to the caller; in particular
no zero-valued metrics are produced. -/
theorem C6_malformed_timing_error_amended (url response first timing : PyStr)
    (rest : List PyStr)
    (hsplit : pySplitlines response = first :: rest)
    (hrest : rest ≠ [])
    (hmark : pyContains first COMMAND_EXIT_ERROR_MESSAGE = false)
    (htim : pyIndex (first :: rest) (-1) = .ok timing)
    (heq : '=' ∉ timing) :
    isOkB (parse_ping_response url response) = false := by
  unfold parse_ping_response check_if_ping_executed_successfully
  simp only [hsplit, pyIndex_cons_zero, hmark]
  rw [if_neg Bool.false_ne_true]
  have hlen : ¬((first :: rest).length = 1) := by
    cases rest with
    | nil => exact absurd rfl hrest
    | cons a l => simp
  have hdet : determine_if_able_to_resolve_host url (first :: rest) = true := by
    unfold determine_if_able_to_resolve_host
    exact if_neg hlen
  rw [hdet, if_neg (show ¬(true = false) by decide)]
  cases hsum : pyIndex (first :: rest) (-2) with
  | error e => simp [hsum, isOkB]
  | ok summary =>
    simp only [hsum]
    cases hps : parse_ping_summary_and_update_parsed_ping_dict
        { host := url, able_to_resolve_host := true, error := none } summary with
    | error e => simp [hps, isOkB]
    | ok d2 =>
      simp only [hps, htim]
      unfold parse_ping_timing_and_update_parsed_ping_dict
      rw [pySplit_no_sep '=' timing heq, pyIndex_singleton_one]
      simp [isOkB]

theorem C6_witness :
    isOkB (parse_ping_response ("www.google.com").data
      ("PING www.google.com: 56 data bytes\n10 packets transmitted, 10 packets received, 0.0% packet loss\nround-trip min/avg/max/stddev 3.084/8.829/11.708/2.290 ms").data) = false :=
  C6_malformed_timing_error_amended _ _
    ("PING www.google.com: 56 data bytes").data
    ("round-trip min/avg/max/stddev 3.084/8.829/11.708/2.290 ms").data
    [("10 packets transmitted, 10 packets received, 0.0% packet loss").data,
     ("round-trip min/avg/max/stddev 3.084/8.829/11.708/2.290 ms").data]
    rfl (by decide) rfl rfl (by decide)

theorem markerScan_single (dk m : PyStr) (v : DaySummary) :
    markerScan [(dk, v)] dk m =
      [(dk, { packet_loss :=
                v.packet_loss + (if pyContains m PACKET_LOSS_ERROR then 1 else 0),
              round_trip_time :=
                v.round_trip_time + (if pyContains m ROUND_TRIP_TIME_ERROR then 1 else 0),
              modem_down :=
                v.modem_down + (if pyContains m MODEM_ERROR then 1 else 0),
              router_down :=
                v.router_down + (if pyContains m LOCAL_ROUTER_ERROR then 1 else 0) })] := by
  unfold markerScan log_message_error_to_summary_key_map
  cases h1 : pyContains m PACKET_LOSS_ERROR <;>
  cases h2 : pyContains m ROUND_TRIP_TIME_ERROR <;>
  cases h3 : pyContains m MODEM_ERROR <;>
  cases h4 : pyContains m LOCAL_ROUTER_ERROR <;>
    simp [h1, h2, h3, h4, List.foldl, updateDate, incKey]

theorem parse_log_single_line (raw line t0 m1 d0 : PyStr) (rest : List PyStr)
    (hsplit : pySplitlines raw = [line])
    (hb1 : pyContains line LOGGER_STARTING_LOG = false)
    (hb2 : pyContains line LOGGER_STATUS_CHECK_RUNNING_MESSAGE = false)
    (hdash : pySplit '-' line = t0 :: m1 :: rest)
    (hd0 : pyIndex (pySplit '@' t0) 0 = .ok d0) :
    parse_log raw = .ok [(d0, lineScan m1)] := by
  have hline : parse_log_line [] line = .ok [(d0, lineScan m1)] := by
    unfold parse_log_line
    rw [hb1, hb2, if_neg (show ¬((false || false) = true) by decide)]
    simp only [hdash, pyIndex_cons_zero, hd0, pyIndex_cons_one]
    simp only [lookupDate, Option.isNone, List.nil_append, if_pos]
    rw [markerScan_single d0 m1 {}]
    simp [lineScan]
  unfold parse_log
  rw [hsplit]
  unfold parse_log_lines
  simp only [hline]
  rfl

/-- C8 (amended): the aggregator splits a line on every `-` and takes only
the segment between the first and the second `-` as the message segment (the
whole remainder only when no second `-` occurs); the date key is the portion
before `@` of the segment preceding the first `-`; consequently each
category is counted exactly when its marker occurs in that segment, and a
marker located after a further `-` is not counted. -/
theorem C8_message_segment_amended (raw line t0 m1 d0 : PyStr) (rest : List PyStr)
    (hsplit : pySplitlines raw = [line])
    (hb1 : pyContains line LOGGER_STARTING_LOG = false)
    (hb2 : pyContains line LOGGER_STATUS_CHECK_RUNNING_MESSAGE = false)
    (hdash : pySplit '-' line = t0 :: m1 :: rest)
    (hd0 : pyIndex (pySplit '@' t0) 0 = .ok d0) :
    parse_log raw = .ok [(d0, lineScan m1)] :=
  parse_log_single_line raw line t0 m1 d0 rest hsplit hb1 hb2 hdash hd0

theorem C8_counterexample :
    pyContains ("after-Packet loss to host was too high").data PACKET_LOSS_ERROR = true ∧
    parse_log ("07/01/2020@10:00:01-after-Packet loss to host was too high").data =
      .ok [(("07/01/2020").data,
            { packet_loss := 0, round_trip_time := 0, modem_down := 0,
              router_down := 0 })] :=
  ⟨rfl, rfl⟩

theorem C8_witness :
    parse_log ("07/03/2020@11:00:00-Round trip time to host was too high-x").data =
      .ok [(("07/03/2020").data,
            lineScan ("Round trip time to host was too high").data)] :=
  C8_message_segment_amended _
    ("07/03/2020@11:00:00-Round trip time to host was too high-x").data
    ("07/03/2020@11:00:00").data
    ("Round trip time to host was too high").data
    ("07/03/2020").data
    [("x").data]
    rfl rfl rfl rfl rfl

/-- C10: the per-line marker scan checks all four marker substrings
independently: on a line whose message segment contains both the packet-loss
marker and the modem-down marker, both category counters are incremented —
matching one marker does not stop the scan. -/
theorem C10_scan_checks_all_markers (raw line t0 m d0 : PyStr) (rest : List PyStr)
    (hsplit : pySplitlines raw = [line])
    (hb1 : pyContains line LOGGER_STARTING_LOG = false)
    (hb2 : pyContains line LOGGER_STATUS_CHECK_RUNNING_MESSAGE = false)
    (hdash : pySplit '-' line = t0 :: m :: rest)
    (hd0 : pyIndex (pySplit '@' t0) 0 = .ok d0)
    (hpl : pyContains m PACKET_LOSS_ERROR = true)
    (hmd : pyContains m MODEM_ERROR = true) :
    parse_log raw = .ok [(d0, lineScan m)] ∧
    (lineScan m).packet_loss = 1 ∧ (lineScan m).modem_down = 1 := by
  refine ⟨parse_log_single_line raw line t0 m d0 rest hsplit hb1 hb2 hdash hd0,
    ?_, ?_⟩ <;> simp [lineScan, hpl, hmd]

theorem C10_witness :
    parse_log ("07/04/2020@12:00:00-Packet loss to host was too high and Unable to reach the modem").data =
      .ok [(("07/04/2020").data,
            lineScan ("Packet loss to host was too high and Unable to reach the modem").data)] ∧
    (lineScan ("Packet loss to host was too high and Unable to reach the modem").data).packet_loss = 1 ∧
    (lineScan ("Packet loss to host was too high and Unable to reach the modem").data).modem_down = 1 :=
  C10_scan_checks_all_markers _
    ("07/04/2020@12:00:00-Packet loss to host was too high and Unable to reach the modem").data
    ("07/04/2020@12:00:00").data
    ("Packet loss to host was too high and Unable to reach the modem").data
    ("07/04/2020").data
    [] rfl rfl rfl rfl rfl rfl rfl

theorem parse_log_line_no_dash (acc : StatusSummary) (line : PyStr)
    (hb1 : pyContains line LOGGER_STARTING_LOG = false)
    (hb2 : pyContains line LOGGER_STATUS_CHECK_RUNNING_MESSAGE = false)
    (hdash : '-' ∉ line) :
    parse_log_line acc line = .error .indexError := by
  unfold parse_log_line
  rw [hb1, hb2, if_neg (show ¬((false || false) = true) by decide)]
  rw [pySplit_no_sep '-' line hdash]
  simp only [pyIndex_cons_zero]
  cases hsp : pySplit '@' line with
  | nil => exact absurd hsp (pySplit_ne_nil '@' line)
  | cons a as =>
    simp only [hsp, pyIndex_cons_zero, pyIndex_singleton_one]

theorem parse_log_lines_error_propagates (line : PyStr) (post : List PyStr)
    (hb1 : pyContains line LOGGER_STARTING_LOG = false)
    (hb2 : pyContains line LOGGER_STATUS_CHECK_RUNNING_MESSAGE = false)
    (hdash : '-' ∉ line) :
    ∀ (pre : List PyStr) (acc : StatusSummary),
      isOkB (parse_log_lines acc (pre ++ line :: post)) = false := by
  intro pre
  induction pre with
  | nil =>
    intro acc
    show isOkB (parse_log_lines acc (line :: post)) = false
    unfold parse_log_lines
    rw [parse_log_line_no_dash acc line hb1 hb2 hdash]
    rfl
  | cons p ps ih =>
    intro acc
    show isOkB (parse_log_lines acc (p :: (ps ++ line :: post))) = false
    unfold parse_log_lines
    cases hpl : parse_log_line acc p with
    | error e => simp only [hpl]; rfl
    | ok acc2 => simp only [hpl]; exact ih acc2

theorem C7_counterexample :
    parse_log ("07/01/2020@10:00:00 missing separator line\n07/02/2020@10:05:00-Unable to reach the modem").data =
      .error .indexError :=
  rfl

/-- C7 (amended): a non-banner log line lacking the `-` separator makes the
aggregator subscript past the end of the split list: `aggregate` aborts with
the raised `IndexError` (modelled by `Except.error`) instead of flagging the
line and continuing with the rest of the log. -/
theorem C7_malformed_line_fatal_amended (raw line : PyStr) (pre post : List PyStr)
    (hsplit : pySplitlines raw = pre ++ line :: post)
    (hb1 : pyContains line LOGGER_STARTING_LOG = false)
    (hb2 : pyContains line LOGGER_STATUS_CHECK_RUNNING_MESSAGE = false)
    (hdash : '-' ∉ line) :
    isOkB (parse_log raw) = false := by
  unfold parse_log
  rw [hsplit]
  exact parse_log_lines_error_propagates line post hb1 hb2 hdash pre []

theorem C7_witness :
    isOkB (parse_log ("07/01/2020@10:00:00 missing separator line\n07/02/2020@10:05:00-Unable to reach the modem").data) = false :=
  C7_malformed_line_fatal_amended _
    ("07/01/2020@10:00:00 missing separator line").data
    [] [("07/02/2020@10:05:00-Unable to reach the modem").data]
    rfl rfl rfl (by decide)

theorem C9_counterexample :
    parse_log c9_log =
      .ok [(("07/01/2020").data,
            { packet_loss := 3, round_trip_time := 0, modem_down := 0,
              router_down := 0 }),
           (("07/02/2020").data,
            { packet_loss := 0, round_trip_time := 0, modem_down := 1,
              router_down := 0 })] ∧
    ({ packet_loss := 0, round_trip_time := 0, modem_down := 1,
       router_down := 0 } : DaySummary) ≠
      { packet_loss := 0, round_trip_time := 0, modem_down := 0,
        router_down := 1 } :=
  ⟨rfl, by decide⟩

/-- C9 (amended): for the log of 3 `D1` packet-loss-marker lines followed by
1 `D2` modem-down-marker line, `aggregate` returns
`{D1: {packet_loss: 3, rtt: 0, modem: 0, router: 0},
  D2: {packet_loss: 0, rtt: 0, modem: 1, router: 0}}` — the modem-down
marker increments the modem counter, not the router counter — with the
dates in first-encountered order `[D1, D2]`. -/
theorem C9_aggregation_counts_amended :
    parse_log c9_log =
      .ok [(("07/01/2020").data,
            { packet_loss := 3, round_trip_time := 0, modem_down := 0,
              router_down := 0 }),
           (("07/02/2020").data,
            { packet_loss := 0, round_trip_time := 0, modem_down := 1,
              router_down := 0 })] :=
  rfl

end InternetStatus
